import Mathlib

/-!
Verification of the ActivityPub federation layer for posts
(src/server/src/apub/post.rs).

Shallow embedding conventions:
* URIs, uuids and all wire values are Lean `String`s; the `XsdAnyUri`
  parse of a stored `ap_id` is modelled as always succeeding (URI
  validity is orthogonal to the properties verified here).
* Timestamps (`NaiveDateTime` / `DateTime<FixedOffset>`) are modelled as
  `Nat`; `convert_datetime` and `.naive_local()` are inverse coercions
  and are modelled as the identity.
* Database access (`User_::read`, `Community::read`, `Post::read`) and
  remote actor resolution (`get_or_fetch_and_upsert_remote_user` /
  `..._community`) are external collaborators; they are passed in as
  function parameters returning `Except LemmyError _`.
* Rust `Option::unwrap` on remote wire data is a panic, not an error
  return; the result type `RunResult` distinguishes `panicked` from
  `err`.
-/

/-- Error taxonomy of the federation core (spec section 7). -/
inductive LemmyError where
  | NotFound
  | InvalidUri
  | MissingField
  | MissingExtension
  | RemoteFetchFailed
  | NotDeleted
  | ParseIntFailure
  | DeliveryFailed
deriving DecidableEq, Repr

/-- Outcome of running Rust code that may return `Ok`, return `Err`, or
panic (an `unwrap` on `None`). -/
inductive RunResult (α : Type) where
  | ok : α → RunResult α
  | err : LemmyError → RunResult α
  | panicked : RunResult α
deriving DecidableEq, Repr

/-- Local user record (`lemmy_db::user::User_`); only the fields read by
this file are modelled. -/
structure User_ where
  id : Int
  actor_id : String
deriving DecidableEq, Repr

/-- Local community record (`lemmy_db::community::Community`).
Modelled from the spec: `get_followers_url` and `get_shared_inbox_url`
are `ActorType` methods defined outside src/; the spec says each actor
exposes a followers-collection URI and a shared-inbox URI, modelled here
as the fields `followers_url` and `shared_inbox_url`. -/
structure Community where
  id : Int
  actor_id : String
  followers_url : String
  shared_inbox_url : String
deriving DecidableEq, Repr

/-- Stored post entity (`lemmy_db::post::Post`), restricted to the
fields read by src/server/src/apub/post.rs. -/
structure Post where
  id : Int
  name : String
  url : Option String
  body : Option String
  creator_id : Int
  community_id : Int
  removed : Bool
  locked : Bool
  published : Nat
  updated : Option Nat
  deleted : Bool
  nsfw : Bool
  stickied : Bool
  embed_title : Option String
  embed_description : Option String
  embed_html : Option String
  thumbnail_url : Option String
  ap_id : String
  «local» : Bool
deriving DecidableEq, Repr

/-- Draft post produced by reverse translation (`lemmy_db::post::PostForm`). -/
structure PostForm where
  name : String
  url : Option String
  body : Option String
  creator_id : Int
  community_id : Int
  removed : Option Bool
  locked : Option Bool
  published : Option Nat
  updated : Option Nat
  deleted : Option Bool
  nsfw : Bool
  stickied : Option Bool
  embed_title : Option String
  embed_description : Option String
  embed_html : Option String
  thumbnail_url : Option String
  ap_id : String
  «local» : Bool
deriving DecidableEq, Repr

/-- Wire image attachment (`activitystreams_new::object::Image`): only
its url is ever set or read here. -/
structure Image where
  url : Option String
deriving DecidableEq, Repr

/-- The nested preview sub-object: a `Page` of which only url, name,
summary and content are ever set or read. -/
structure Preview where
  url : Option String
  name : Option String
  summary : Option String
  content : Option String
deriving DecidableEq, Repr

/-- Wire page object (`activitystreams_new::object::Page`), restricted
to the properties set or read in src/server/src/apub/post.rs.  Every
property of a fresh `Page::new()` is unset. -/
structure Page where
  id : Option String := none
  summary : Option String := none
  published : Option Nat := none
  updated : Option Nat := none
  «to» : Option String := none
  attributed_to : Option String := none
  content : Option String := none
  url : Option String := none
  image : Option Image := none
  preview : Option Preview := none
deriving DecidableEq, Repr

/-- The extension block (`PageExtension`) carrying the two fields absent
from the base vocabulary. -/
structure PageExtension where
  comments_enabled : Bool
  sensitive : Bool
deriving DecidableEq, Repr

/-- `Ext1<Page, PageExtension>`: a page together with its mandatory
extension block.  The block is a total field: a wire document lacking it
does not deserialize to this type at all (spec: `MissingExtension`). -/
structure PageExt where
  inner : Page
  ext_one : PageExtension
deriving DecidableEq, Repr

/-- Tombstone document: federation identity, former type tag, deleted-at
timestamp. -/
structure Tombstone where
  id : String
  former_type : String
  deleted : Nat
deriving DecidableEq, Repr

/-- Server settings consumed by the translator (protocol scheme and
hostname, used only to build the pictshare thumbnail URL). -/
structure Settings where
  protocol : String
  hostname : String
deriving DecidableEq, Repr

/-- Timestamp coercion `convert_datetime`; timestamps are opaque `Nat`s
here, so the coercion is the identity. -/
def convert_datetime (t : Nat) : Nat := t

/-- The `PageType` type tag rendered to a string. -/
def PageTypeString : String := "Page"

/-- Turn a post into an ActivityPub page (`Post::to_apub`).  `readUser`
and `readCommunity` stand for the storage lookups `User_::read` and
`Community::read` on the pool. -/
def Post.to_apub (readUser : Int → Except LemmyError User_)
    (readCommunity : Int → Except LemmyError Community)
    (cfg : Settings) (p : Post) : Except LemmyError PageExt := do
  let creator ← readUser p.creator_id
  let community ← readCommunity p.community_id
  -- self.url.as_ref().filter(|u| !u.is_empty())
  let url := Option.filter (fun u => !u.isEmpty) p.url
  let page : Page := {
    id := some p.ap_id
    summary := some p.name
    published := some (convert_datetime p.published)
    «to» := some community.actor_id
    attributed_to := some creator.actor_id
    -- if let Some(body) = &self.body { page.set_content(body) }
    content := p.body
    url := url
    -- the preview sub-object is synthesized only when the url is present
    -- and non-empty; each embed field is set on it only when present
    preview := url.map fun u =>
      { url := some u
        name := p.embed_title
        summary := p.embed_description
        content := p.embed_html }
    image := p.thumbnail_url.map fun t =>
      { url := some (cfg.protocol ++ "://" ++ cfg.hostname ++ "/pictshare/" ++ t) }
    updated := p.updated.map convert_datetime }
  pure { inner := page
         ext_one := { comments_enabled := !p.locked, sensitive := p.nsfw } }

/-- Modelled from the spec: `create_tombstone` lives in the apub module
root, outside src/.  Per spec 4.2 it is a pure function
(deleted flag, federation identity, optional updated-at, type tag) to a
Tombstone or an error, failing with `NotDeleted` when the deletion flag
is false; the deleted-at timestamp falls back to last-updated, then to
now (`now` is the fresh-timestamp parameter). -/
def create_tombstone (deleted : Bool) (ap_id : String)
    (updated : Option Nat) (former_type : String) (now : Nat) :
    Except LemmyError Tombstone :=
  if deleted then
    Except.ok { id := ap_id, former_type := former_type
                deleted := (updated.map convert_datetime).getD now }
  else
    Except.error LemmyError.NotDeleted

/-- `Post::to_tombstone`. -/
def Post.to_tombstone (now : Nat) (p : Post) : Except LemmyError Tombstone :=
  create_tombstone p.deleted p.ap_id p.updated PageTypeString now

/-- Parse an ActivityPub page received from another instance into a
draft post (`PostForm::from_apub`).  `resolveUser` and
`resolveCommunity` stand for the external fetch-or-upsert actor
resolution service.  Absent mandatory fields hit an `unwrap` in the
source and therefore panic rather than produce an error value;
evaluation order of the panics follows the source. -/
def PostForm.from_apub (resolveUser : String → Except LemmyError User_)
    (resolveCommunity : String → Except LemmyError Community)
    (page : PageExt) : RunResult PostForm :=
  let ext := page.ext_one
  -- page.inner.attributed_to.as_ref().unwrap()
  match page.inner.attributed_to with
  | none => RunResult.panicked
  | some creator_actor_id =>
    match resolveUser creator_actor_id with
    | Except.error e => RunResult.err e
    | Except.ok creator =>
      -- page.inner.to.as_ref().unwrap()
      match page.inner.«to» with
      | none => RunResult.panicked
      | some community_actor_id =>
        match resolveCommunity community_actor_id with
        | Except.error e => RunResult.err e
        | Except.ok community =>
          -- match &page.inner.image { Some => ...url.unwrap()..., None => None }
          let thumb : RunResult (Option String) :=
            match page.inner.image with
            | some img =>
              match img.url with
              | none => RunResult.panicked
              | some u => RunResult.ok (some u)
            | none => RunResult.ok none
          match thumb with
          | RunResult.panicked => RunResult.panicked
          | RunResult.err e => RunResult.err e
          | RunResult.ok thumbnail_url =>
            -- preview name/summary/content lift into the embed fields
            let embed_title := Option.bind page.inner.preview fun pp => pp.name
            let embed_description :=
              Option.bind page.inner.preview fun pp => pp.summary
            let embed_html := Option.bind page.inner.preview fun pp => pp.content
            let url := page.inner.url
            let body := page.inner.content
            -- page.inner.summary.as_ref().unwrap()
            match page.inner.summary with
            | none => RunResult.panicked
            | some name =>
              -- page.inner.id().unwrap()
              match page.inner.id with
              | none => RunResult.panicked
              | some wire_id =>
                RunResult.ok {
                  name := name
                  url := url
                  body := body
                  creator_id := creator.id
                  community_id := community.id
                  removed := none
                  locked := some (!ext.comments_enabled)
                  published := page.inner.published.map convert_datetime
                  updated := page.inner.updated.map convert_datetime
                  deleted := none
                  nsfw := ext.sensitive
                  stickied := none
                  embed_title := embed_title
                  embed_description := embed_description
                  embed_html := embed_html
                  thumbnail_url := thumbnail_url
                  ap_id := wire_id
                  «local» := false }

/-- Activity kind tags for the envelopes built in this file. -/
inductive ActKind where
  | create
  | update
  | delete
  | remove
  | like
  | dislike
  | undo
deriving DecidableEq, Repr

/-- The object properties common to every activity: its unique id and
its audience list. -/
structure ObjectProps where
  id : String
  «to» : List String
deriving DecidableEq, Repr

/-- Modelled from the spec: `populate_object_props` lives in
apub/activities.rs, outside src/.  Per spec 4.3 it stamps the activity
with its unique id and sets the audience to the recipient-collection
list. -/
def populate_object_props (recipients : List String) (id : String) :
    ObjectProps :=
  { id := id, «to» := recipients }

/-- An activity envelope: a basic activity (Create/Update/Delete/
Remove/Like/Dislike) embeds the page object; an Undo embeds another
activity. -/
inductive Activity where
  | basic (kind : ActKind) (props : ObjectProps) (actor : String)
      (object : PageExt)
  | undoOf (props : ObjectProps) (actor : String) (object : Activity)
deriving DecidableEq, Repr

/-- The activity id. -/
def Activity.aid : Activity → String
  | Activity.basic _ props _ _ => props.id
  | Activity.undoOf props _ _ => props.id

/-- The activity audience list. -/
def Activity.audience : Activity → List String
  | Activity.basic _ props _ _ => props.«to»
  | Activity.undoOf props _ _ => props.«to»

/-- The acting party stamped on the activity. -/
def Activity.actor : Activity → String
  | Activity.basic _ _ a _ => a
  | Activity.undoOf _ a _ => a

/-- The kind tag of the activity. -/
def Activity.kind : Activity → ActKind
  | Activity.basic k _ _ _ => k
  | Activity.undoOf _ _ _ => ActKind.undo

/-- The embedded activity payload (present only for Undo envelopes). -/
def Activity.payload : Activity → Option Activity
  | Activity.basic _ _ _ _ => none
  | Activity.undoOf _ _ inner => some inner

/-- `Post::send_create`: build the Create envelope for a new post.  The
fresh `uuid::Uuid::new_v4()` is the parameter `uuid`; delivery through
`send_activity_to_community` is the external Dispatcher and is out of
scope, so the built envelope is returned. -/
def Post.send_create (readUser : Int → Except LemmyError User_)
    (readCommunity : Int → Except LemmyError Community) (cfg : Settings)
    (creator : User_) (p : Post) (uuid : String) :
    Except LemmyError Activity := do
  let page ← p.to_apub readUser readCommunity cfg
  let community ← readCommunity p.community_id
  let id := p.ap_id ++ "/create/" ++ uuid
  pure (Activity.basic ActKind.create
    (populate_object_props [community.followers_url] id)
    creator.actor_id page)

/-- `Post::send_update`: build the Update envelope for an edited post. -/
def Post.send_update (readUser : Int → Except LemmyError User_)
    (readCommunity : Int → Except LemmyError Community) (cfg : Settings)
    (creator : User_) (p : Post) (uuid : String) :
    Except LemmyError Activity := do
  let page ← p.to_apub readUser readCommunity cfg
  let community ← readCommunity p.community_id
  let id := p.ap_id ++ "/update/" ++ uuid
  pure (Activity.basic ActKind.update
    (populate_object_props [community.followers_url] id)
    creator.actor_id page)

/-- `Post::send_delete`: build the Delete envelope. -/
def Post.send_delete (readUser : Int → Except LemmyError User_)
    (readCommunity : Int → Except LemmyError Community) (cfg : Settings)
    (creator : User_) (p : Post) (uuid : String) :
    Except LemmyError Activity := do
  let page ← p.to_apub readUser readCommunity cfg
  let community ← readCommunity p.community_id
  let id := p.ap_id ++ "/delete/" ++ uuid
  pure (Activity.basic ActKind.delete
    (populate_object_props [community.followers_url] id)
    creator.actor_id page)

/-- `Post::send_undo_delete`: rebuild the Delete activity (with its own
fresh uuid) and wrap it in an Undo envelope with a fresh id under the
undo/delete namespace. -/
def Post.send_undo_delete (readUser : Int → Except LemmyError User_)
    (readCommunity : Int → Except LemmyError Community) (cfg : Settings)
    (creator : User_) (p : Post) (uuid1 uuid2 : String) :
    Except LemmyError Activity := do
  let page ← p.to_apub readUser readCommunity cfg
  let community ← readCommunity p.community_id
  let id := p.ap_id ++ "/delete/" ++ uuid1
  let deleteAct := Activity.basic ActKind.delete
    (populate_object_props [community.followers_url] id)
    creator.actor_id page
  let undo_id := p.ap_id ++ "/undo/delete/" ++ uuid2
  pure (Activity.undoOf
    (populate_object_props [community.followers_url] undo_id)
    creator.actor_id deleteAct)

/-- `Post::send_remove`: build the Remove envelope; the acting party is
the moderator `mod_`, not the post creator. -/
def Post.send_remove (readUser : Int → Except LemmyError User_)
    (readCommunity : Int → Except LemmyError Community) (cfg : Settings)
    (mod_ : User_) (p : Post) (uuid : String) :
    Except LemmyError Activity := do
  let page ← p.to_apub readUser readCommunity cfg
  let community ← readCommunity p.community_id
  let id := p.ap_id ++ "/remove/" ++ uuid
  pure (Activity.basic ActKind.remove
    (populate_object_props [community.followers_url] id)
    mod_.actor_id page)

/-- `Post::send_undo_remove`: rebuild the Remove activity and wrap it in
an Undo envelope; the acting party is the moderator `mod_`. -/
def Post.send_undo_remove (readUser : Int → Except LemmyError User_)
    (readCommunity : Int → Except LemmyError Community) (cfg : Settings)
    (mod_ : User_) (p : Post) (uuid1 uuid2 : String) :
    Except LemmyError Activity := do
  let page ← p.to_apub readUser readCommunity cfg
  let community ← readCommunity p.community_id
  let id := p.ap_id ++ "/remove/" ++ uuid1
  let removeAct := Activity.basic ActKind.remove
    (populate_object_props [community.followers_url] id)
    mod_.actor_id page
  let undo_id := p.ap_id ++ "/undo/remove/" ++ uuid2
  pure (Activity.undoOf
    (populate_object_props [community.followers_url] undo_id)
    mod_.actor_id removeAct)

/-- `Post::send_like`: build the Like envelope. -/
def Post.send_like (readUser : Int → Except LemmyError User_)
    (readCommunity : Int → Except LemmyError Community) (cfg : Settings)
    (creator : User_) (p : Post) (uuid : String) :
    Except LemmyError Activity := do
  let page ← p.to_apub readUser readCommunity cfg
  let community ← readCommunity p.community_id
  let id := p.ap_id ++ "/like/" ++ uuid
  pure (Activity.basic ActKind.like
    (populate_object_props [community.followers_url] id)
    creator.actor_id page)

/-- `Post::send_dislike`: build the Dislike envelope. -/
def Post.send_dislike (readUser : Int → Except LemmyError User_)
    (readCommunity : Int → Except LemmyError Community) (cfg : Settings)
    (creator : User_) (p : Post) (uuid : String) :
    Except LemmyError Activity := do
  let page ← p.to_apub readUser readCommunity cfg
  let community ← readCommunity p.community_id
  let id := p.ap_id ++ "/dislike/" ++ uuid
  pure (Activity.basic ActKind.dislike
    (populate_object_props [community.followers_url] id)
    creator.actor_id page)

/-- `Post::send_undo_like`: rebuild the Like activity and wrap it in an
Undo envelope with a fresh id under the undo/like namespace. -/
def Post.send_undo_like (readUser : Int → Except LemmyError User_)
    (readCommunity : Int → Except LemmyError Community) (cfg : Settings)
    (creator : User_) (p : Post) (uuid1 uuid2 : String) :
    Except LemmyError Activity := do
  let page ← p.to_apub readUser readCommunity cfg
  let community ← readCommunity p.community_id
  let id := p.ap_id ++ "/like/" ++ uuid1
  let likeAct := Activity.basic ActKind.like
    (populate_object_props [community.followers_url] id)
    creator.actor_id page
  let undo_id := p.ap_id ++ "/undo/like/" ++ uuid2
  pure (Activity.undoOf
    (populate_object_props [community.followers_url] undo_id)
    creator.actor_id likeAct)

/-- The two response shapes of the inbound HTTP handler: the full
federated object document (`create_apub_response`) or the tombstone
document (`create_apub_tombstone_response`).  Modelled from the spec:
the two response constructors live in the apub module root, outside
src/; each wraps the given document in an HTTP response with the
federation media type (Gone status for the tombstone). -/
inductive ApubResponse where
  | obj : PageExt → ApubResponse
  | tomb : Tombstone → ApubResponse
deriving DecidableEq, Repr

/-- Accumulate decimal digits into a natural number; fails on any
non-digit character. -/
def digitsToNatAux : List Char → Nat → Option Nat
  | [], acc => some acc
  | c :: cs, acc =>
    if c.isDigit then digitsToNatAux cs (acc * 10 + (c.toNat - 48))
    else none

/-- `info.post_id.parse::<i32>()?`: an optional sign followed by at
least one decimal digit, with the value required to fit in i32. -/
def parse_i32 (s : String) : Except LemmyError Int :=
  let signed : Option Int :=
    match s.data with
    | [] => none
    | '+' :: rest =>
      match rest with
      | [] => none
      | _ => (digitsToNatAux rest 0).map fun n => (n : Int)
    | '-' :: rest =>
      match rest with
      | [] => none
      | _ => (digitsToNatAux rest 0).map fun n => -(n : Int)
    | cs => (digitsToNatAux cs 0).map fun n => (n : Int)
  match signed with
  | some n =>
    if -2147483648 ≤ n ∧ n < 2147483648 then Except.ok n
    else Except.error LemmyError.ParseIntFailure
  | none => Except.error LemmyError.ParseIntFailure

/-- The inbound HTTP handler `get_apub_post`: read the post by id and
return the full object json, or the tombstone response when the post is
deleted.  `readPost` stands for `Post::read` on the pool; `now` is the
fresh timestamp the tombstone falls back to. -/
def get_apub_post (readPost : Int → Except LemmyError Post)
    (readUser : Int → Except LemmyError User_)
    (readCommunity : Int → Except LemmyError Community)
    (cfg : Settings) (now : Nat) (post_id : String) :
    Except LemmyError ApubResponse := do
  let id ← parse_i32 post_id
  let post ← readPost id
  if !post.deleted then
    let page ← post.to_apub readUser readCommunity cfg
    pure (ApubResponse.obj page)
  else
    let t ← post.to_tombstone now
    pure (ApubResponse.tomb t)

/-- The nine Facade operation kinds (spec 4.5). -/
inductive OpKind where
  | create
  | update
  | delete
  | undoDelete
  | remove
  | undoRemove
  | like
  | dislike
  | undoLike
deriving DecidableEq, Repr

/-- The path segment (with its surrounding slashes) that the given kind
interpolates between the entity ap_id and the random suffix. -/
def OpKind.segment : OpKind → String
  | OpKind.create => "/create/"
  | OpKind.update => "/update/"
  | OpKind.delete => "/delete/"
  | OpKind.undoDelete => "/undo/delete/"
  | OpKind.remove => "/remove/"
  | OpKind.undoRemove => "/undo/remove/"
  | OpKind.like => "/like/"
  | OpKind.dislike => "/dislike/"
  | OpKind.undoLike => "/undo/like/"

/-- Which uuid of the supply the envelope id of invocation `i` uses: the
undo kinds draw two uuids per invocation and stamp the envelope with the
second. -/
def OpKind.uuidIndex : OpKind → Nat → Nat
  | OpKind.undoDelete, i => 2 * i + 1
  | OpKind.undoRemove, i => 2 * i + 1
  | OpKind.undoLike, i => 2 * i + 1
  | _, i => 2 * i

/-- Invocation `i` of the Facade operation of kind `k` on post `p`, with
the fresh uuids drawn from the supply `u` (invocation `i` consumes
`u (2*i)` and, for undo kinds, also `u (2*i+1)`). -/
def Post.send (k : OpKind) (readUser : Int → Except LemmyError User_)
    (readCommunity : Int → Except LemmyError Community) (cfg : Settings)
    (actor : User_) (p : Post) (u : Nat → String) (i : Nat) :
    Except LemmyError Activity :=
  match k with
  | OpKind.create => p.send_create readUser readCommunity cfg actor (u (2 * i))
  | OpKind.update => p.send_update readUser readCommunity cfg actor (u (2 * i))
  | OpKind.delete => p.send_delete readUser readCommunity cfg actor (u (2 * i))
  | OpKind.undoDelete =>
    p.send_undo_delete readUser readCommunity cfg actor (u (2 * i)) (u (2 * i + 1))
  | OpKind.remove => p.send_remove readUser readCommunity cfg actor (u (2 * i))
  | OpKind.undoRemove =>
    p.send_undo_remove readUser readCommunity cfg actor (u (2 * i)) (u (2 * i + 1))
  | OpKind.like => p.send_like readUser readCommunity cfg actor (u (2 * i))
  | OpKind.dislike => p.send_dislike readUser readCommunity cfg actor (u (2 * i))
  | OpKind.undoLike =>
    p.send_undo_like readUser readCommunity cfg actor (u (2 * i)) (u (2 * i + 1))

theorem except_bind_ok {ε α β : Type} (a : α) (f : α → Except ε β) :
    (Except.ok a >>= f) = f a := rfl

theorem except_bind_error {ε α β : Type} (e : ε) (f : α → Except ε β) :
    ((Except.error e : Except ε α) >>= f) = Except.error e := rfl

theorem string_append_left_cancel {a s t : String} (h : a ++ s = a ++ t) :
    s = t := by
  have hd : (a ++ s).data = (a ++ t).data := congrArg String.data h
  simp only [String.data_append] at hd
  exact String.ext (List.append_cancel_left hd)

theorem except_pure_eq_ok {ε α : Type} (a : α) :
    (pure a : Except ε α) = Except.ok a := rfl

/-- C8: to_apub always attaches the extension block with
comments-enabled equal to the negation of the locked flag and sensitive
equal to the nsfw flag; from_apub derives locked as the negation of the
wire comments-enabled and nsfw as the wire sensitive value. -/
theorem C8_extension_flags :
    (∀ (readUser : Int → Except LemmyError User_)
       (readCommunity : Int → Except LemmyError Community)
       (cfg : Settings) (p : Post) (wire : PageExt),
       p.to_apub readUser readCommunity cfg = Except.ok wire →
       wire.ext_one.comments_enabled = !p.locked ∧
       wire.ext_one.sensitive = p.nsfw) ∧
    (∀ (resolveUser : String → Except LemmyError User_)
       (resolveCommunity : String → Except LemmyError Community)
       (page : PageExt) (form : PostForm),
       PostForm.from_apub resolveUser resolveCommunity page = RunResult.ok form →
       form.locked = some (!page.ext_one.comments_enabled) ∧
       form.nsfw = page.ext_one.sensitive) := by
  constructor
  · intro ru rc cfg p wire h
    cases hru : ru p.creator_id with
    | error e =>
      simp only [Post.to_apub, hru, except_bind_error] at h
      exact absurd h (by simp)
    | ok creator =>
      cases hrc : rc p.community_id with
      | error e =>
        simp only [Post.to_apub, hru, hrc, except_bind_ok, except_bind_error] at h
        exact absurd h (by simp)
      | ok community =>
        simp only [Post.to_apub, hru, hrc, except_bind_ok,
          except_pure_eq_ok] at h
        cases h
        exact ⟨rfl, rfl⟩
  · intro resU resC page form h
    unfold PostForm.from_apub at h
    repeat' split at h
    all_goals simp_all
    all_goals exact ⟨h.symm ▸ rfl, h.symm ▸ rfl⟩

/-- C10: every draft entity produced by from_apub has removed, deleted
and stickied unset: the reverse translation never imports a deleted,
removed or stickied state from the remote object. -/
theorem C10_no_imported_moderation_state
    (resolveUser : String → Except LemmyError User_)
    (resolveCommunity : String → Except LemmyError Community)
    (page : PageExt) (form : PostForm)
    (h : PostForm.from_apub resolveUser resolveCommunity page =
      RunResult.ok form) :
    form.removed = none ∧ form.deleted = none ∧ form.stickied = none := by
  unfold PostForm.from_apub at h
  repeat' split at h
  all_goals simp_all
  all_goals exact ⟨h.symm ▸ rfl, h.symm ▸ rfl, h.symm ▸ rfl⟩

theorem convert_datetime_map (o : Option Nat) :
    o.map convert_datetime = o := by
  cases o <;> rfl

/-- C2: a post whose url is the empty string yields a wire object with
no url and no preview sub-object, identical to the wire object of the
same post with url unset. -/
theorem C2_empty_url_normalization
    (readUser : Int → Except LemmyError User_)
    (readCommunity : Int → Except LemmyError Community)
    (cfg : Settings) (p : Post) (hurl : p.url = some "") (wire : PageExt)
    (hw : p.to_apub readUser readCommunity cfg = Except.ok wire) :
    wire.inner.url = none ∧ wire.inner.preview = none ∧
    Post.to_apub readUser readCommunity cfg { p with url := none } =
      Except.ok wire := by
  have hfilter : Option.filter (fun u => !u.isEmpty) p.url = none := by
    rw [hurl]; rfl
  cases hru : readUser p.creator_id with
  | error e =>
    simp only [Post.to_apub, hru, except_bind_error] at hw
    exact absurd hw (by simp)
  | ok creator =>
    cases hrc : readCommunity p.community_id with
    | error e =>
      simp only [Post.to_apub, hru, hrc, except_bind_ok,
        except_bind_error] at hw
      exact absurd hw (by simp)
    | ok community =>
      simp only [Post.to_apub, hru, hrc, except_bind_ok,
        except_pure_eq_ok, hfilter] at hw
      cases hw
      refine ⟨rfl, rfl, ?_⟩
      simp only [Post.to_apub, hru, hrc, except_bind_ok, except_pure_eq_ok]
      rfl

/-- C7: to_tombstone fails with NotDeleted when the deletion flag is
false; when it is true the tombstone carries deleted-at equal to the
updated timestamp if set, else the fresh timestamp. -/
theorem C7_tombstone_gating (p : Post) (now : Nat) :
    (p.deleted = false →
      p.to_tombstone now = Except.error LemmyError.NotDeleted) ∧
    (p.deleted = true →
      p.to_tombstone now = Except.ok
        { id := p.ap_id, former_type := PageTypeString
          deleted := p.updated.getD now }) := by
  constructor <;> intro h <;>
    simp [Post.to_tombstone, create_tombstone, h, convert_datetime_map]

/-- C6: the inbound HTTP handler returns the full federated object
document when the post is not deleted, and the tombstone document when
it is; for a deleted post the result does not depend on the translation
environment, so the full-object path is never invoked. -/
theorem C6_http_full_object_or_tombstone
    (readPost : Int → Except LemmyError Post)
    (readUser : Int → Except LemmyError User_)
    (readCommunity : Int → Except LemmyError Community)
    (cfg : Settings) (now : Nat) (pid : String) (n : Int) (post : Post)
    (hparse : parse_i32 pid = Except.ok n)
    (hread : readPost n = Except.ok post) :
    (post.deleted = false →
      get_apub_post readPost readUser readCommunity cfg now pid =
        (post.to_apub readUser readCommunity cfg).map ApubResponse.obj) ∧
    (post.deleted = true →
      get_apub_post readPost readUser readCommunity cfg now pid =
        Except.ok (ApubResponse.tomb
          { id := post.ap_id, former_type := PageTypeString
            deleted := post.updated.getD now }) ∧
      ∀ (readUser2 : Int → Except LemmyError User_)
        (readCommunity2 : Int → Except LemmyError Community),
        get_apub_post readPost readUser2 readCommunity2 cfg now pid =
          get_apub_post readPost readUser readCommunity cfg now pid) := by
  constructor
  · intro h
    simp only [get_apub_post, hparse, hread, except_bind_ok, h]
    cases hta : post.to_apub readUser readCommunity cfg with
    | error e => simp [hta, except_bind_error, Except.map]
    | ok page => simp [hta, except_bind_ok, except_pure_eq_ok, Except.map]
  · intro h
    constructor
    · simp [get_apub_post, hparse, hread, except_bind_ok, h,
        Post.to_tombstone, create_tombstone, convert_datetime_map,
        except_pure_eq_ok]
    · intro readUser2 readCommunity2
      simp [get_apub_post, hparse, hread, except_bind_ok, h]

/-- Concrete creator used by the witness instantiations. -/
def sampleUser : User_ :=
  { id := 7, actor_id := "https://a.example/u/alice" }

/-- Concrete moderator used by the witness instantiations. -/
def sampleMod : User_ :=
  { id := 9, actor_id := "https://a.example/u/mira" }

/-- Concrete community used by the witness instantiations. -/
def sampleCommunity : Community :=
  { id := 3
    actor_id := "https://a.example/c/main"
    followers_url := "https://a.example/c/main/followers"
    shared_inbox_url := "https://a.example/inbox" }

/-- Concrete settings used by the witness instantiations. -/
def sampleCfg : Settings := { protocol := "https", hostname := "b.example" }

/-- Storage stub returning the sample creator for any id. -/
def stubReadUser : Int → Except LemmyError User_ :=
  fun _ => Except.ok sampleUser

/-- Storage stub returning the sample community for any id. -/
def stubReadCommunity : Int → Except LemmyError Community :=
  fun _ => Except.ok sampleCommunity

/-- Actor-resolution stub returning the sample creator for any URI. -/
def stubResolveUser : String → Except LemmyError User_ :=
  fun _ => Except.ok sampleUser

/-- Actor-resolution stub returning the sample community for any URI. -/
def stubResolveCommunity : String → Except LemmyError Community :=
  fun _ => Except.ok sampleCommunity

/-- Concrete local, non-deleted post used by the witness
instantiations; its creator and community ids match the sample actors. -/
def samplePost : Post :=
  { id := 1
    name := "a title"
    url := some "https://x.example/article"
    body := some "a body"
    creator_id := 7
    community_id := 3
    removed := false
    locked := false
    published := 10
    updated := some 20
    deleted := false
    nsfw := true
    stickied := false
    embed_title := some "embed title"
    embed_description := none
    embed_html := some "embed html"
    thumbnail_url := some "thumb.png"
    ap_id := "https://a.example/post/1"
    «local» := true }

/-- A wire page with no attributed-to field. -/
def pageMissingAttribution : PageExt :=
  { inner := { «to» := some "https://a.example/c/main"
               summary := some "a title"
               id := some "https://r.example/post/9" }
    ext_one := { comments_enabled := true, sensitive := false } }

/-- A wire page with no audience field. -/
def pageMissingAudience : PageExt :=
  { inner := { attributed_to := some "https://a.example/u/alice"
               summary := some "a title"
               id := some "https://r.example/post/9" }
    ext_one := { comments_enabled := true, sensitive := false } }

/-- C3 counterexample: on a wire object lacking the attributed-to field,
from_apub hits an unwrap and panics; it does not return a MissingField
error value. -/
theorem C3_counterexample :
    PostForm.from_apub stubResolveUser stubResolveCommunity
      pageMissingAttribution = RunResult.panicked ∧
    PostForm.from_apub stubResolveUser stubResolveCommunity
      pageMissingAttribution ≠ RunResult.err LemmyError.MissingField := by
  constructor
  · rfl
  · decide

/-- C3 (amended): when the attributed-to field is absent, or the
audience field is absent and creator resolution succeeds, from_apub
aborts by panic (an unwrap on a missing value) rather than by returning
a MissingField error; no entity is produced either way. -/
theorem C3_missing_field_panics
    (resolveUser : String → Except LemmyError User_)
    (resolveCommunity : String → Except LemmyError Community)
    (page : PageExt) :
    (page.inner.attributed_to = none →
      PostForm.from_apub resolveUser resolveCommunity page =
        RunResult.panicked) ∧
    (∀ (a : String) (creator : User_),
      page.inner.attributed_to = some a →
      resolveUser a = Except.ok creator →
      page.inner.«to» = none →
      PostForm.from_apub resolveUser resolveCommunity page =
        RunResult.panicked) := by
  constructor
  · intro h
    simp [PostForm.from_apub, h]
  · intro a creator ha hres hto
    simp [PostForm.from_apub, ha, hres, hto]

/-- Witness for C3: both panic modes realized on concrete wire pages. -/
theorem C3_missing_field_panics_witness :
    PostForm.from_apub stubResolveUser stubResolveCommunity
      pageMissingAttribution = RunResult.panicked ∧
    PostForm.from_apub stubResolveUser stubResolveCommunity
      pageMissingAudience = RunResult.panicked :=
  ⟨(C3_missing_field_panics stubResolveUser stubResolveCommunity
      pageMissingAttribution).1 rfl,
   (C3_missing_field_panics stubResolveUser stubResolveCommunity
      pageMissingAudience).2 "https://a.example/u/alice" sampleUser
      rfl rfl rfl⟩

/-- Inversion for the common shape of the nine facade operations: the
translated page exists, the community lookup succeeded, and the result
is the built envelope. -/
theorem send_bind_inversion {ru : Int → Except LemmyError User_}
    {rc : Int → Except LemmyError Community} {cfg : Settings} {p : Post}
    (mk : PageExt → Community → Activity) {act : Activity}
    (h : (do
      let page ← p.to_apub ru rc cfg
      let community ← rc p.community_id
      pure (mk page community) : Except LemmyError Activity) =
        Except.ok act) :
    ∃ page community, p.to_apub ru rc cfg = Except.ok page ∧
      rc p.community_id = Except.ok community ∧
      act = mk page community := by
  cases hta : p.to_apub ru rc cfg with
  | error e =>
    rw [hta] at h
    simp [except_bind_error] at h
  | ok page =>
    cases hrc : rc p.community_id with
    | error e =>
      rw [hta, hrc] at h
      simp [except_bind_ok, except_bind_error] at h
    | ok community =>
      rw [hta, hrc] at h
      simp only [except_bind_ok, except_pure_eq_ok] at h
      exact ⟨page, community, rfl, rfl, (Except.ok.inj h).symm⟩

/-- C9: the create/update/delete/undo-delete/like/dislike/undo-like
envelopes carry the content creator as acting party, while the
remove/undo-remove envelopes carry the acting moderator, a principal
passed separately from the creator. -/
theorem C9_acting_principal
    (readUser : Int → Except LemmyError User_)
    (readCommunity : Int → Except LemmyError Community) (cfg : Settings)
    (creator mod_ : User_) (p : Post) (u1 u2 : String) :
    (∀ a, p.send_create readUser readCommunity cfg creator u1 =
      Except.ok a → a.actor = creator.actor_id) ∧
    (∀ a, p.send_update readUser readCommunity cfg creator u1 =
      Except.ok a → a.actor = creator.actor_id) ∧
    (∀ a, p.send_delete readUser readCommunity cfg creator u1 =
      Except.ok a → a.actor = creator.actor_id) ∧
    (∀ a, p.send_undo_delete readUser readCommunity cfg creator u1 u2 =
      Except.ok a → a.actor = creator.actor_id) ∧
    (∀ a, p.send_like readUser readCommunity cfg creator u1 =
      Except.ok a → a.actor = creator.actor_id) ∧
    (∀ a, p.send_dislike readUser readCommunity cfg creator u1 =
      Except.ok a → a.actor = creator.actor_id) ∧
    (∀ a, p.send_undo_like readUser readCommunity cfg creator u1 u2 =
      Except.ok a → a.actor = creator.actor_id) ∧
    (∀ a, p.send_remove readUser readCommunity cfg mod_ u1 =
      Except.ok a → a.actor = mod_.actor_id) ∧
    (∀ a, p.send_undo_remove readUser readCommunity cfg mod_ u1 u2 =
      Except.ok a → a.actor = mod_.actor_id) := by
  refine ⟨?_, ?_, ?_, ?_, ?_, ?_, ?_, ?_, ?_⟩ <;>
  · intro a h
    obtain ⟨page, community, hta, hrc, ha⟩ := send_bind_inversion _ h
    rw [ha]
    rfl

/-- C5: the undo-delete envelope embeds a Delete-kind activity whose
audience is the community followers collection, the same recipient list
the Delete envelope itself uses, and the Undo envelope id lives under
the undo/delete namespace with its own fresh suffix. -/
theorem C5_undo_wraps_delete
    (readUser : Int → Except LemmyError User_)
    (readCommunity : Int → Except LemmyError Community) (cfg : Settings)
    (creator : User_) (p : Post) (u1 u1b u2 : String)
    (community : Community)
    (hrc : readCommunity p.community_id = Except.ok community)
    (d und : Activity)
    (hd : p.send_delete readUser readCommunity cfg creator u1 =
      Except.ok d)
    (hund : p.send_undo_delete readUser readCommunity cfg creator u1b u2 =
      Except.ok und) :
    und.kind = ActKind.undo ∧
    (∃ inner, und.payload = some inner ∧ inner.kind = ActKind.delete ∧
      inner.audience = d.audience ∧
      d.audience = [community.followers_url]) ∧
    und.aid = p.ap_id ++ "/undo/delete/" ++ u2 := by
  obtain ⟨page, community2, hta, hrc2, hd2⟩ := send_bind_inversion _ hd
  obtain ⟨page2, community3, hta2, hrc3, hu2⟩ := send_bind_inversion _ hund
  rw [hrc] at hrc2 hrc3
  cases Except.ok.inj hrc2
  cases Except.ok.inj hrc3
  subst hd2
  subst hu2
  exact ⟨rfl, ⟨_, rfl, rfl, rfl, rfl⟩, rfl⟩

/-- C4: for every operation kind, consecutive facade invocations on the
same post, drawing fresh suffixes from an injective supply, stamp their
envelopes with ids of the form ap_id plus kind segment plus suffix, and
distinct invocations yield distinct ids. -/
theorem C4_unique_activity_ids
    (readUser : Int → Except LemmyError User_)
    (readCommunity : Int → Except LemmyError Community) (cfg : Settings)
    (actor : User_) (p : Post) (u : Nat → String)
    (hu : ∀ m n, u m = u n → m = n)
    (k : OpKind) (i j : Nat) (hij : i ≠ j) (a b : Activity)
    (ha : Post.send k readUser readCommunity cfg actor p u i =
      Except.ok a)
    (hb : Post.send k readUser readCommunity cfg actor p u j =
      Except.ok b) :
    a.aid = p.ap_id ++ k.segment ++ u (k.uuidIndex i) ∧
    b.aid = p.ap_id ++ k.segment ++ u (k.uuidIndex j) ∧
    a.aid ≠ b.aid := by
  have hshape : ∀ (m : Nat) (c : Activity),
      Post.send k readUser readCommunity cfg actor p u m = Except.ok c →
      c.aid = p.ap_id ++ k.segment ++ u (k.uuidIndex m) := by
    intro m c hc
    cases k <;>
    · obtain ⟨page, community, hta, hrc, hc2⟩ := send_bind_inversion _ hc
      rw [hc2]
      rfl
  have hinj : k.uuidIndex i = k.uuidIndex j → i = j := by
    cases k <;> intro h <;> simp only [OpKind.uuidIndex] at h <;> omega
  have hA := hshape i a ha
  have hB := hshape j b hb
  refine ⟨hA, hB, ?_⟩
  rw [hA, hB]
  intro heq
  exact hij (hinj (hu _ _ (string_append_left_cancel heq)))

/-- A local, non-deleted post whose url is the empty string but whose
embed metadata is set. -/
def cexPost : Post := { samplePost with url := some "" }

/-- The wire object produced from `cexPost`: no url, no preview. -/
def cexWire : PageExt :=
  { inner := { id := some "https://a.example/post/1"
               summary := some "a title"
               published := some 10
               «to» := some "https://a.example/c/main"
               attributed_to := some "https://a.example/u/alice"
               content := some "a body"
               url := none
               image := some { url := some "https://b.example/pictshare/thumb.png" }
               preview := none
               updated := some 20 }
    ext_one := { comments_enabled := true, sensitive := true } }

/-- The draft entity produced by reverse-translating `cexWire`. -/
def cexForm : PostForm :=
  { name := "a title"
    url := none
    body := some "a body"
    creator_id := 7
    community_id := 3
    removed := none
    locked := some false
    published := some 10
    updated := some 20
    deleted := none
    nsfw := true
    stickied := none
    embed_title := none
    embed_description := none
    embed_html := none
    thumbnail_url := some "https://b.example/pictshare/thumb.png"
    ap_id := "https://a.example/post/1"
    «local» := false }

/-- C1 counterexample: for the local, non-deleted post `cexPost` (url is
the empty string, embed title set), the round trip through to_apub and
from_apub with resolution stubs returning the original creator and
community loses both the url and the embed title, so the claim as
stated fails. -/
theorem C1_counterexample :
    cexPost.«local» = true ∧ cexPost.deleted = false ∧
    Post.to_apub stubReadUser stubReadCommunity sampleCfg cexPost =
      Except.ok cexWire ∧
    PostForm.from_apub stubResolveUser stubResolveCommunity cexWire =
      RunResult.ok cexForm ∧
    cexForm.url ≠ cexPost.url ∧
    cexForm.embed_title ≠ cexPost.embed_title := by
  exact ⟨rfl, rfl, rfl, rfl, by decide, by decide⟩

/-- C1 (amended): for every local, non-deleted post whose url is present
and non-empty, translating to wire form and back with actor-resolution
stubs that return the original creator and community reproduces title,
body, url, embed metadata and the locked and nsfw flags exactly; the
produced entity is non-local and its ap_id equals the wire id. -/
theorem C1_round_trip
    (readUser : Int → Except LemmyError User_)
    (readCommunity : Int → Except LemmyError Community)
    (resolveUser : String → Except LemmyError User_)
    (resolveCommunity : String → Except LemmyError Community)
    (cfg : Settings) (p : Post) (creator : User_) (community : Community)
    (u : String)
    (_hlocal : p.«local» = true) (_hdel : p.deleted = false)
    (hurl : p.url = some u) (hne : u.isEmpty = false)
    (hru : readUser p.creator_id = Except.ok creator)
    (hrc : readCommunity p.community_id = Except.ok community)
    (hresu : resolveUser creator.actor_id = Except.ok creator)
    (hresc : resolveCommunity community.actor_id = Except.ok community)
    (wire : PageExt)
    (hw : p.to_apub readUser readCommunity cfg = Except.ok wire) :
    ∃ form, PostForm.from_apub resolveUser resolveCommunity wire =
        RunResult.ok form ∧
      form.name = p.name ∧ form.body = p.body ∧ form.url = p.url ∧
      form.embed_title = p.embed_title ∧
      form.embed_description = p.embed_description ∧
      form.embed_html = p.embed_html ∧
      form.locked = some p.locked ∧ form.nsfw = p.nsfw ∧
      form.«local» = false ∧ form.ap_id = p.ap_id ∧
      wire.inner.id = some form.ap_id := by
  have hfilter : Option.filter (fun s => !s.isEmpty) p.url = some u := by
    rw [hurl]
    simp [Option.filter, hne]
  simp only [Post.to_apub, hru, hrc, except_bind_ok, except_pure_eq_ok,
    hfilter] at hw
  cases hw
  cases hthumb : p.thumbnail_url with
  | none =>
    refine ⟨{ name := p.name, url := some u, body := p.body,
              creator_id := creator.id, community_id := community.id,
              removed := none, locked := some p.locked,
              published := some p.published, updated := p.updated,
              deleted := none, nsfw := p.nsfw, stickied := none,
              embed_title := p.embed_title,
              embed_description := p.embed_description,
              embed_html := p.embed_html, thumbnail_url := none,
              ap_id := p.ap_id, «local» := false },
           ?_, rfl, rfl, hurl.symm, rfl, rfl, rfl, rfl, rfl, rfl, rfl,
           rfl⟩
    simp [PostForm.from_apub, hresu, hresc, convert_datetime_map,
      convert_datetime]
  | some t =>
    refine ⟨{ name := p.name, url := some u, body := p.body,
              creator_id := creator.id, community_id := community.id,
              removed := none, locked := some p.locked,
              published := some p.published, updated := p.updated,
              deleted := none, nsfw := p.nsfw, stickied := none,
              embed_title := p.embed_title,
              embed_description := p.embed_description,
              embed_html := p.embed_html,
              thumbnail_url := some (cfg.protocol ++ "://" ++
                cfg.hostname ++ "/pictshare/" ++ t),
              ap_id := p.ap_id, «local» := false },
           ?_, rfl, rfl, hurl.symm, rfl, rfl, rfl, rfl, rfl, rfl, rfl,
           rfl⟩
    simp [PostForm.from_apub, hresu, hresc, convert_datetime_map,
      convert_datetime]

/-- The wire object produced from `samplePost`. -/
def sampleWire : PageExt :=
  { inner := { id := some "https://a.example/post/1"
               summary := some "a title"
               published := some 10
               updated := some 20
               «to» := some "https://a.example/c/main"
               attributed_to := some "https://a.example/u/alice"
               content := some "a body"
               url := some "https://x.example/article"
               image := some { url := some "https://b.example/pictshare/thumb.png" }
               preview := some { url := some "https://x.example/article"
                                 name := some "embed title"
                                 summary := none
                                 content := some "embed html" } }
    ext_one := { comments_enabled := true, sensitive := true } }

/-- The draft entity produced by reverse-translating `sampleWire`. -/
def sampleForm : PostForm :=
  { name := "a title"
    url := some "https://x.example/article"
    body := some "a body"
    creator_id := 7
    community_id := 3
    removed := none
    locked := some false
    published := some 10
    updated := some 20
    deleted := none
    nsfw := true
    stickied := none
    embed_title := some "embed title"
    embed_description := none
    embed_html := some "embed html"
    thumbnail_url := some "https://b.example/pictshare/thumb.png"
    ap_id := "https://a.example/post/1"
    «local» := false }

/-- Witness for C1: the round trip realized on `samplePost`. -/
theorem C1_round_trip_witness :
    ∃ form, PostForm.from_apub stubResolveUser stubResolveCommunity
        sampleWire = RunResult.ok form ∧
      form.name = samplePost.name ∧ form.body = samplePost.body ∧
      form.url = samplePost.url ∧
      form.embed_title = samplePost.embed_title ∧
      form.embed_description = samplePost.embed_description ∧
      form.embed_html = samplePost.embed_html ∧
      form.locked = some samplePost.locked ∧
      form.nsfw = samplePost.nsfw ∧ form.«local» = false ∧
      form.ap_id = samplePost.ap_id ∧
      sampleWire.inner.id = some form.ap_id :=
  C1_round_trip stubReadUser stubReadCommunity stubResolveUser
    stubResolveCommunity sampleCfg samplePost sampleUser sampleCommunity
    "https://x.example/article" rfl rfl rfl rfl rfl rfl rfl rfl
    sampleWire rfl

/-- Witness for C2: empty-url normalization realized on `cexPost`. -/
theorem C2_empty_url_normalization_witness :
    cexWire.inner.url = none ∧ cexWire.inner.preview = none ∧
    Post.to_apub stubReadUser stubReadCommunity sampleCfg
      { cexPost with url := none } = Except.ok cexWire :=
  C2_empty_url_normalization stubReadUser stubReadCommunity sampleCfg
    cexPost rfl cexWire rfl

/-- Injective suffix supply standing in for fresh uuid generation. -/
def witnessSupply : Nat → String :=
  fun n => String.mk (List.replicate n 'a')

theorem witnessSupply_inj :
    ∀ m n, witnessSupply m = witnessSupply n → m = n := by
  intro m n h
  have h2 := congrArg (fun s => s.data.length) h
  simpa [witnessSupply] using h2

/-- First Create envelope drawn from the witness supply. -/
def c4ActA : Activity :=
  Activity.basic ActKind.create
    { id := samplePost.ap_id ++ "/create/" ++ witnessSupply 0
      «to» := [sampleCommunity.followers_url] }
    sampleUser.actor_id sampleWire

/-- Second Create envelope drawn from the witness supply. -/
def c4ActB : Activity :=
  Activity.basic ActKind.create
    { id := samplePost.ap_id ++ "/create/" ++ witnessSupply 2
      «to» := [sampleCommunity.followers_url] }
    sampleUser.actor_id sampleWire

/-- Witness for C4: two consecutive Create invocations on `samplePost`
yield distinct activity ids. -/
theorem C4_unique_activity_ids_witness :
    c4ActA.aid = samplePost.ap_id ++ OpKind.create.segment ++
      witnessSupply (OpKind.create.uuidIndex 0) ∧
    c4ActB.aid = samplePost.ap_id ++ OpKind.create.segment ++
      witnessSupply (OpKind.create.uuidIndex 1) ∧
    c4ActA.aid ≠ c4ActB.aid :=
  C4_unique_activity_ids stubReadUser stubReadCommunity sampleCfg
    sampleUser samplePost witnessSupply witnessSupply_inj OpKind.create
    0 1 (by decide) c4ActA c4ActB rfl rfl

/-- The Delete envelope for `samplePost`. -/
def c5Delete : Activity :=
  Activity.basic ActKind.delete
    { id := samplePost.ap_id ++ "/delete/" ++ "d1"
      «to» := [sampleCommunity.followers_url] }
    sampleUser.actor_id sampleWire

/-- The Undo envelope for `samplePost`, embedding a rebuilt Delete. -/
def c5Undo : Activity :=
  Activity.undoOf
    { id := samplePost.ap_id ++ "/undo/delete/" ++ "x2"
      «to» := [sampleCommunity.followers_url] }
    sampleUser.actor_id
    (Activity.basic ActKind.delete
      { id := samplePost.ap_id ++ "/delete/" ++ "x1"
        «to» := [sampleCommunity.followers_url] }
      sampleUser.actor_id sampleWire)

/-- Witness for C5: the undo-delete envelope of `samplePost` wraps a
Delete payload with the followers audience. -/
theorem C5_undo_wraps_delete_witness :
    c5Undo.kind = ActKind.undo ∧
    (∃ inner, c5Undo.payload = some inner ∧
      inner.kind = ActKind.delete ∧
      inner.audience = c5Delete.audience ∧
      c5Delete.audience = [sampleCommunity.followers_url]) ∧
    c5Undo.aid = samplePost.ap_id ++ "/undo/delete/" ++ "x2" :=
  C5_undo_wraps_delete stubReadUser stubReadCommunity sampleCfg
    sampleUser samplePost "d1" "x1" "x2" sampleCommunity rfl
    c5Delete c5Undo rfl rfl

/-- Storage stub returning the live sample post for any id. -/
def stubReadPost : Int → Except LemmyError Post :=
  fun _ => Except.ok samplePost

/-- The sample post with its deletion flag set. -/
def deletedPost : Post := { samplePost with deleted := true }

/-- Storage stub returning the deleted sample post for any id. -/
def stubReadPostDeleted : Int → Except LemmyError Post :=
  fun _ => Except.ok deletedPost

/-- Witness for C6: the handler serves the full object for the live
post and the tombstone for the deleted post. -/
theorem C6_http_full_object_or_tombstone_witness :
    get_apub_post stubReadPost stubReadUser stubReadCommunity sampleCfg
      99 "1" = (samplePost.to_apub stubReadUser stubReadCommunity
        sampleCfg).map ApubResponse.obj ∧
    get_apub_post stubReadPostDeleted stubReadUser stubReadCommunity
      sampleCfg 99 "1" = Except.ok (ApubResponse.tomb
        { id := deletedPost.ap_id, former_type := PageTypeString
          deleted := deletedPost.updated.getD 99 }) :=
  ⟨(C6_http_full_object_or_tombstone stubReadPost stubReadUser
      stubReadCommunity sampleCfg 99 "1" 1 samplePost (by rfl) rfl).1 rfl,
   ((C6_http_full_object_or_tombstone stubReadPostDeleted stubReadUser
      stubReadCommunity sampleCfg 99 "1" 1 deletedPost (by rfl) rfl).2
      rfl).1⟩

/-- Witness for C7: `NotDeleted` on the live post, fallback deleted-at
on the deleted post. -/
theorem C7_tombstone_gating_witness :
    samplePost.to_tombstone 99 = Except.error LemmyError.NotDeleted ∧
    deletedPost.to_tombstone 99 = Except.ok
      { id := deletedPost.ap_id, former_type := PageTypeString
        deleted := deletedPost.updated.getD 99 } :=
  ⟨(C7_tombstone_gating samplePost 99).1 rfl,
   (C7_tombstone_gating deletedPost 99).2 rfl⟩

/-- Witness for C8: both directions of the extension-flag mapping
realized on `samplePost` and `sampleWire`. -/
theorem C8_extension_flags_witness :
    (sampleWire.ext_one.comments_enabled = !samplePost.locked ∧
     sampleWire.ext_one.sensitive = samplePost.nsfw) ∧
    (sampleForm.locked = some (!sampleWire.ext_one.comments_enabled) ∧
     sampleForm.nsfw = sampleWire.ext_one.sensitive) :=
  ⟨C8_extension_flags.1 stubReadUser stubReadCommunity sampleCfg
      samplePost sampleWire rfl,
   C8_extension_flags.2 stubResolveUser stubResolveCommunity sampleWire
      sampleForm rfl⟩

/-- The Create envelope used by the C9 witness. -/
def c9CreateAct : Activity :=
  Activity.basic ActKind.create
    { id := samplePost.ap_id ++ "/create/" ++ "u1"
      «to» := [sampleCommunity.followers_url] }
    sampleUser.actor_id sampleWire

/-- The Remove envelope used by the C9 witness. -/
def c9RemoveAct : Activity :=
  Activity.basic ActKind.remove
    { id := samplePost.ap_id ++ "/remove/" ++ "u1"
      «to» := [sampleCommunity.followers_url] }
    sampleMod.actor_id sampleWire

/-- Witness for C9: the Create envelope carries the creator, the Remove
envelope the moderator. -/
theorem C9_acting_principal_witness :
    c9CreateAct.actor = sampleUser.actor_id ∧
    c9RemoveAct.actor = sampleMod.actor_id :=
  ⟨(C9_acting_principal stubReadUser stubReadCommunity sampleCfg
      sampleUser sampleMod samplePost "u1" "u2").1 c9CreateAct rfl,
   (C9_acting_principal stubReadUser stubReadCommunity sampleCfg
      sampleUser sampleMod samplePost "u1"
      "u2").2.2.2.2.2.2.2.1 c9RemoveAct rfl⟩

/-- Witness for C10: the reverse-translated `sampleWire` carries no
moderation state. -/
theorem C10_no_imported_moderation_state_witness :
    sampleForm.removed = none ∧ sampleForm.deleted = none ∧
    sampleForm.stickied = none :=
  C10_no_imported_moderation_state stubResolveUser stubResolveCommunity
    sampleWire sampleForm rfl
